import Mathlib

/-!
Verification of the `shooter` multiplayer game server (Go, single file server).

The definitions below are a shallow embedding of the server source:
the player-slot array, the message router (`serveWs` receive loop),
the handshake (`initialisePlayer`), the round controller (`nextRound`),
the location snapshot (`serialiseLocations` and the ticker branch of `run`),
and disconnect cleanup.  Go `int` fields are modelled as `Int`, byte values
as `Nat` (0..255), the 6-element player array as a `List Player` of length 6,
a nil/non-nil websocket connection as a `Bool` flag, and outbound traffic
(unicasts, broadcasts and `time.AfterFunc` schedulings) as an explicit
output list.  A runtime fault (array index out of range, nil-pointer
dereference) is modelled by returning `none`.
-/

namespace Shooter

/-- Server→client message header bytes (`messageHeaders` in the source). -/
def nextRoundHeader : Nat := 0

def playerHeader : Nat := 1

def locationsHeader : Nat := 2

def shotHeader : Nat := 3

def killedHeader : Nat := 4

def teamPointHeader : Nat := 5

def loseHealthHeader : Nat := 6

def playerDisconnectHeader : Nat := 7

/-- Team assignment (`type team int`; `a` = 0, `b` = 1). -/
inductive Team where
  | a
  | b
deriving DecidableEq, Repr

/-- The byte a team serialises to (`byte(a)` = 0, `byte(b)` = 1). -/
def teamByte : Team → Nat
  | Team.a => 0
  | Team.b => 1

/-- One player slot (`type player struct`).  `hasConn` models whether the
`conn` pointer is non-nil; position components are the mathematical values
of the stored `int8` fields. -/
structure Player where
  id : Nat
  health : Int
  team : Team
  hasConn : Bool
  isAlive : Bool
  x : Int
  y : Int
  z : Int
deriving DecidableEq, Repr

/-- The Go zero value `player{}`, stored in an unoccupied slot. -/
def emptyPlayer : Player :=
  { id := 0, health := 0, team := Team.a, hasConn := false, isAlive := false
    x := 0, y := 0, z := 0 }

/-- `player.isEmpty()`: a slot is empty iff its connection is nil. -/
def Player.isEmpty (p : Player) : Bool := !p.hasConn

/-- `newPlayer(id, conn)`: team derived from the id (ids 0..2 team a,
3..5 team b, `maxTeamPlayers` = 3); health and alive are left at their
zero values until `nextRound` resets them. -/
def newPlayer (id : Nat) : Player :=
  { id := id, health := 0, team := if id < 3 then Team.a else Team.b
    hasConn := true, isAlive := false, x := 0, y := 0, z := 0 }

/-- The server state (`type server struct`), minus the mutex and the
broadcast channel, which are replaced by explicit output lists. -/
structure Server where
  players : List Player
  teamAPoints : Int
  teamBPoints : Int
  round : Int
  numPlayers : Int
  currentNumPlayers : Int
deriving DecidableEq, Repr

/-- `newServer(numPlayers)`: six empty slots, everything else zero. -/
def newServer (numPlayers : Int) : Server :=
  { players := List.replicate 6 emptyPlayer, teamAPoints := 0, teamBPoints := 0
    round := 0, numPlayers := numPlayers, currentNumPlayers := 0 }

/-- Outbound effects of one processing step: a unicast write to one
player's connection, a broadcast over the channel, or a `time.AfterFunc`
scheduling (next round, the round-start play broadcast, process exit). -/
inductive Output where
  | unicast (target : Nat) (payload : List Nat)
  | broadcast (payload : List Nat)
  | scheduleNextRound
  | schedulePlay
  | scheduleExit
deriving DecidableEq, Repr

/-- Number of occurrences of one output in an output list. -/
def countOut (outs : List Output) (o : Output) : Nat :=
  outs.countP (fun x => decide (x = o))

/-- `isTeamAAllDead`: scans `players[:maxTeamPlayers]`; false iff some
occupied slot there is alive. -/
def isTeamAAllDead (s : Server) : Bool :=
  (s.players.take 3).all (fun p => p.isEmpty || !p.isAlive)

/-- `isTeamBAllDead`: scans `players[maxTeamPlayers:]`. -/
def isTeamBAllDead (s : Server) : Bool :=
  (s.players.drop 3).all (fun p => p.isEmpty || !p.isAlive)

/-- The health decrement `server.players[hitPlayerId].health -= damage`. -/
def hitUpdate (s : Server) (t d : Nat) : Server :=
  let p := s.players.getD t emptyPlayer
  { s with players := s.players.set t { p with health := p.health - (d : Int) } }

/-- The write `server.players[hitPlayerId].isAlive = false`. -/
def markNotAlive (s : Server) (t : Nat) : Server :=
  let p := s.players.getD t emptyPlayer
  { s with players := s.players.set t { p with isAlive := false } }

/-- The hit branch of the receive loop switch (lines 158-191 of the
server source).  `none` models a runtime panic: the raw byte `t` indexes
the 6-element array (out of range for `t ≥ 6`), and the health-loss
unicast dereferences the target slot's connection (nil for an empty
slot).  Otherwise: decrement health (unclamped), unicast the health loss,
and if the stored health dropped below 1, mark not-alive, broadcast the
kill, and on a full team wipe broadcast the team point and schedule the
next round after the grace delay. -/
def processHit (s : Server) (senderId t d : Nat) : Option (Server × List Output) :=
  if t < 6 then
    let p := s.players.getD t emptyPlayer
    let s1 := hitUpdate s t d
    if p.hasConn then
      let outs := [Output.unicast t [loseHealthHeader, d]]
      if (s1.players.getD t emptyPlayer).health < 1 then
        let s2 := markNotAlive s1 t
        let kill := Output.broadcast [killedHeader, senderId, t]
        if (s2.players.getD t emptyPlayer).team = Team.a ∧ isTeamAAllDead s2 then
          some (s2, outs ++ [kill, Output.broadcast [teamPointHeader, teamByte Team.b],
            Output.scheduleNextRound])
        else if (s2.players.getD t emptyPlayer).team = Team.b ∧ isTeamBAllDead s2 then
          some (s2, outs ++ [kill, Output.broadcast [teamPointHeader, teamByte Team.a],
            Output.scheduleNextRound])
        else
          some (s2, outs ++ [kill])
      else
        some (s1, outs)
    else none
  else none

/-- Conversion of a received byte to the `int8` stored in a position
field (`int8(message[i])`). -/
def byteToInt8 (b : Nat) : Int :=
  if b < 128 then (b : Int) else (b : Int) - 256

/-- Truncation of a stored value back to a byte (`byte(...)` on an
`int8` or small `int`). -/
def int8ToByte (v : Int) : Nat := (v % 256).toNat

/-- The location branch of the receive loop switch: overwrite the
sender's stored position with the three signed bytes. -/
def locationUpdate (s : Server) (senderId xB yB zB : Nat) : Server :=
  let p := s.players.getD senderId emptyPlayer
  let p1 := { p with x := byteToInt8 xB, y := byteToInt8 yB, z := byteToInt8 zB }
  { s with players := s.players.set senderId p1 }

/-- One iteration of the receive loop's message switch (lines 150-211).
An empty message, a hit message whose length is not 3, a location message
whose length is not 4, and an unknown kind byte are all logged and
dropped (`some (s, [])`: state unchanged, no output, loop continues).
A shot message is broadcast without any length check.  `none` models a
panic inside the hit branch. -/
def processMessage (s : Server) (senderId : Nat) (msg : List Nat) :
    Option (Server × List Output) :=
  match msg with
  | [] => some (s, [])
  | kind :: rest =>
    if kind = 0 then
      match rest with
      | [t, d] => processHit s senderId t d
      | _ => some (s, [])
    else if kind = 1 then
      some (s, [Output.broadcast [shotHeader, senderId]])
    else if kind = 2 then
      match rest with
      | [xB, yB, zB] => some (locationUpdate s senderId xB yB zB, [])
      | _ => some (s, [])
    else
      some (s, [])

/-- Sequential processing of several messages from one sender,
accumulating outputs; a panic anywhere aborts the run. -/
def processMessages (s : Server) (senderId : Nat) (msgs : List (List Nat)) :
    Option (Server × List Output) :=
  match msgs with
  | [] => some (s, [])
  | m :: ms =>
    match processMessage s senderId m with
    | none => none
    | some (s1, outs) =>
      match processMessages s1 senderId ms with
      | none => none
      | some (s2, outs2) => some (s2, outs ++ outs2)

/-- `nextRound` (lines 301-328).  When the round counter already equals
the last round (10) it schedules process exit after the linger delay;
it then (unconditionally: the source does not return early) resets
health and alive for every slot, broadcasts the NextRound header,
increments the round counter, and schedules the round-start play
broadcast after the grace delay. -/
def nextRound (s : Server) : Server × List Output :=
  let exitSched : List Output := if s.round = 10 then [Output.scheduleExit] else []
  let reset := s.players.map (fun p => { p with health := 3, isAlive := true })
  let s1 := { s with players := reset }
  let s2 := { s1 with round := s1.round + 1 }
  (s2, exitSched ++ [Output.broadcast [nextRoundHeader], Output.schedulePlay])

/-- The state after a `nextRound` call, outputs discarded. -/
def nextRoundState (s : Server) : Server := (nextRound s).1

/-- `serialiseLocations`: the Locations header byte followed, for each
slot in index order, skipping empty slots, by the four bytes
`byte(id), byte(x), byte(y), byte(z)` of the location parcel. -/
def serialiseLocations (s : Server) : List Nat :=
  locationsHeader ::
    s.players.foldl
      (fun acc p =>
        if p.isEmpty then acc
        else acc ++ [p.id % 256, int8ToByte p.x, int8ToByte p.y, int8ToByte p.z])
      []

/-- The ticker branch of `run` (lines 78-94): before the game starts
(round 0) nothing is sent; otherwise the serialised location snapshot is
broadcast to every occupied slot. -/
def tickOutputs (s : Server) : List Output :=
  if s.round = 0 then [] else [Output.broadcast (serialiseLocations s)]

/-- The per-tuple wire encoding of one occupied slot, per the spec's
snapshot description: an (id, x, y, z) tuple. -/
def locationEntry (p : Player) : List Nat :=
  [p.id % 256, int8ToByte p.x, int8ToByte p.y, int8ToByte p.z]

/-- Modelled from the spec's words for comparison with
`serialiseLocations`: one entry per currently occupied slot, empty slots
omitted, in slot order. -/
def snapshotEntriesSpec (s : Server) : List Nat :=
  (s.players.filter (fun p => !p.isEmpty)).flatMap locationEntry

/-- The error cases of `initialisePlayer`: the handshake read failed,
the id message was badly formed (wrong length or id byte above 5), the
requested slot was taken, or the write of the success byte failed. -/
inductive InitError where
  | readFailed
  | badIdMessage
  | slotTaken
  | writeFailed
deriving DecidableEq, Repr

/-- Result of `initialisePlayer`: the (possibly mutated) server state,
the bytes the server attempted to write to the client during the
handshake, the error returned (if any), and the inducted id. -/
structure InitResult where
  state : Server
  sent : List Nat
  error : Option InitError
  newId : Option Nat
deriving DecidableEq, Repr

/-- `initialisePlayer` (lines 231-267).  `idMsg` is the handshake read
(`none` = read error), `writeOk` says whether the write of the success
byte succeeds.  A badly formed message (length not 1, or byte above 5)
or a taken slot sends the failure byte 1 and returns an error with the
registry untouched.  Otherwise the slot is occupied and the live count
incremented before the success byte is written, so a failed success
write returns an error while leaving the registry mutated. -/
def initialisePlayer (s : Server) (idMsg : Option (List Nat)) (writeOk : Bool) :
    InitResult :=
  match idMsg with
  | none => { state := s, sent := [], error := some InitError.readFailed, newId := none }
  | some m =>
    if m.length ≠ 1 ∨ 5 < m.headD 0 then
      { state := s, sent := [1], error := some InitError.badIdMessage, newId := none }
    else
      let id := m.headD 0
      if (s.players.getD id emptyPlayer).isEmpty = false then
        { state := s, sent := [1], error := some InitError.slotTaken, newId := none }
      else
        let s1 := { s with players := s.players.set id (newPlayer id),
                           currentNumPlayers := s.currentNumPlayers + 1 }
        if writeOk then
          { state := s1, sent := [0], error := none, newId := some id }
        else
          { state := s1, sent := [0], error := some InitError.writeFailed, newId := some id }

/-- How the admission part of `serveWs` resolved. -/
inductive AdmissionResult where
  | httpLobbyFull
  | httpGameInProgress
  | initFailed (e : InitError)
  | admitted (id : Nat)
deriving DecidableEq, Repr

/-- Overall outcome of the admission part of `serveWs`. -/
structure AdmissionOutcome where
  result : AdmissionResult
  state : Server
  sent : List Nat
  outputs : List Output
deriving DecidableEq, Repr

/-- The admission part of `serveWs` (lines 107-137): reject with an HTTP
error (before any websocket traffic) when the lobby is full or a round
is in progress; otherwise run `initialisePlayer`; on success, if the
player quota is now reached, run `nextRound`. -/
def serveWsAdmission (s : Server) (idMsg : Option (List Nat)) (writeOk : Bool) :
    AdmissionOutcome :=
  if s.numPlayers ≤ s.currentNumPlayers then
    { result := AdmissionResult.httpLobbyFull, state := s, sent := [], outputs := [] }
  else if 0 < s.round then
    { result := AdmissionResult.httpGameInProgress, state := s, sent := [], outputs := [] }
  else
    let r := initialisePlayer s idMsg writeOk
    match r.error with
    | some e =>
      { result := AdmissionResult.initFailed e, state := r.state, sent := r.sent
        outputs := [] }
    | none =>
      if r.state.currentNumPlayers = r.state.numPlayers then
        let n := nextRound r.state
        { result := AdmissionResult.admitted (r.newId.getD 0), state := n.1
          sent := r.sent, outputs := n.2 }
      else
        { result := AdmissionResult.admitted (r.newId.getD 0), state := r.state
          sent := r.sent, outputs := [] }

/-- What the receive loop does with a failed `ReadMessage` (lines
141-149): `closeCode` is the close code when the error is a websocket
close error, `none` for any other I/O error.  Only the close codes
CloseNormalClosure (1000) and CloseGoingAway (1001) break out of the
loop; every other error is logged and the loop continues. -/
inductive LoopAction where
  | exitLoop
  | continueLoop
deriving DecidableEq, Repr

/-- Decision taken on a read error, mirroring
`websocket.IsCloseError(err, CloseNormalClosure, CloseGoingAway)`. -/
def readErrorAction (closeCode : Option Nat) : LoopAction :=
  match closeCode with
  | some c => if c = 1000 ∨ c = 1001 then LoopAction.exitLoop else LoopAction.continueLoop
  | none => LoopAction.continueLoop

/-- The cleanup after the receive loop ends (lines 213-221): reset the
slot to the zero value, decrement the live count, broadcast the
disconnect notification carrying the vacated id. -/
def disconnectCleanup (s : Server) (id : Nat) : Server × List Output :=
  ({ s with players := s.players.set id emptyPlayer,
            currentNumPlayers := s.currentNumPlayers - 1 },
   [Output.broadcast [playerDisconnectHeader, id]])

/-- A reachable two-player game state: a fresh two-player server after
players 0 (team a) and 3 (team b) complete their handshakes; the second
admission fills the quota and triggers `nextRound`, so the round is 1
and every slot has health 3 and is alive. -/
def demoState : Server :=
  (serveWsAdmission ((serveWsAdmission (newServer 2) (some [0]) true).state)
    (some [3]) true).state

/-- The demo state after nine further round transitions: the round
counter stands at the last round, 10. -/
def roundTenState : Server :=
  nextRoundState (nextRoundState (nextRoundState (nextRoundState (nextRoundState
    (nextRoundState (nextRoundState (nextRoundState (nextRoundState demoState))))))))

/-! Helper lemmas about list indexing used throughout. -/

theorem getD_set_self {α : Type} (l : List α) (n : Nat) (a d : α)
    (h : n < l.length) : (l.set n a).getD n d = a := by
  simp [List.getD_eq_getElem?_getD, List.getElem?_set_self, h]

theorem getD_set_ne {α : Type} (l : List α) (m n : Nat) (a d : α)
    (h : m ≠ n) : (l.set m a).getD n d = l.getD n d := by
  simp [List.getD_eq_getElem?_getD, List.getElem?_set_ne h]

theorem getD_map_of_lt {α β : Type} (f : α → β) (l : List α) (n : Nat)
    (d : β) (d0 : α) (h : n < l.length) :
    (l.map f).getD n d = f (l.getD n d0) := by
  simp [List.getD_eq_getElem?_getD, List.getElem?_map,
    List.getElem?_eq_getElem h]

theorem hitUpdate_players_length (s : Server) (t d : Nat) :
    (hitUpdate s t d).players.length = s.players.length := by
  simp [hitUpdate]

theorem hitUpdate_getD_self (s : Server) (t d : Nat)
    (h : t < s.players.length) :
    (hitUpdate s t d).players.getD t emptyPlayer
      = { s.players.getD t emptyPlayer with
            health := (s.players.getD t emptyPlayer).health - (d : Int) } := by
  simp only [hitUpdate]
  exact getD_set_self _ _ _ _ h

theorem markNotAlive_getD_self (s : Server) (t : Nat)
    (h : t < s.players.length) :
    (markNotAlive s t).players.getD t emptyPlayer
      = { s.players.getD t emptyPlayer with isAlive := false } := by
  simp only [markNotAlive]
  exact getD_set_self _ _ _ _ h

/-- The trailing outputs of the kill branch: the team-point broadcast
and the deferred round transition, when the victim's whole team is dead
in the post-kill state `s2`; nothing otherwise. -/
def killTail (s2 : Server) (t : Nat) : List Output :=
  if (s2.players.getD t emptyPlayer).team = Team.a ∧ isTeamAAllDead s2 then
    [Output.broadcast [teamPointHeader, teamByte Team.b], Output.scheduleNextRound]
  else if (s2.players.getD t emptyPlayer).team = Team.b ∧ isTeamBAllDead s2 then
    [Output.broadcast [teamPointHeader, teamByte Team.a], Output.scheduleNextRound]
  else []

/-- Characterisation of the hit branch on an in-range, occupied target:
the health decrement always happens and the health-loss unicast is
always sent; the kill broadcast and team-point/scheduling tail are
appended exactly when the decremented health is below 1 — the test is on
the stored health alone, never on the previous alive flag. -/
theorem processHit_spec (s : Server) (sender t d : Nat)
    (hl : s.players.length = 6) (ht : t < 6)
    (hc : (s.players.getD t emptyPlayer).hasConn = true) :
    processHit s sender t d =
      if (s.players.getD t emptyPlayer).health - (d : Int) < 1 then
        some (markNotAlive (hitUpdate s t d) t,
          [Output.unicast t [loseHealthHeader, d],
           Output.broadcast [killedHeader, sender, t]] ++
            killTail (markNotAlive (hitUpdate s t d) t) t)
      else
        some (hitUpdate s t d, [Output.unicast t [loseHealthHeader, d]]) := by
  have hlt : t < s.players.length := by omega
  simp only [processHit, killTail]
  rw [if_pos ht, if_pos hc]
  simp only [hitUpdate_getD_self s t d hlt]
  by_cases hk : (s.players.getD t emptyPlayer).health - (d : Int) < 1
  · simp only [hk, if_true, if_pos hk]
    split_ifs <;> simp
  · simp only [hk, if_false, if_neg hk]

/-! C1: health clamping. -/

/-- C1 counterexample: in a reachable two-player game, a single Hit
message with damage 5 against the full-health player in slot 3 leaves
that slot's stored health at -2, which is negative — the decrement is
not floored at 0. -/
theorem hit_health_negative_cex :
    (processMessage demoState 0 [0, 3, 5]).map
        (fun r => (r.1.players.getD 3 emptyPlayer).health) = some (-2) ∧
      (-2 : Int) < 0 := by
  constructor
  · decide
  · decide

/-- C1 (amended): for every Hit message of length 3 whose target slot is
occupied, the target's stored health is decremented by exactly the
damage byte, with no floor: the new stored health is the old health
minus the damage, and is negative whenever the damage exceeds the old
health. -/
theorem hit_decrement_unclamped (s : Server) (sender t d : Nat)
    (hl : s.players.length = 6) (ht : t < 6)
    (hc : (s.players.getD t emptyPlayer).hasConn = true) :
    ∃ s2 outs, processMessage s sender [0, t, d] = some (s2, outs) ∧
      (s2.players.getD t emptyPlayer).health
        = (s.players.getD t emptyPlayer).health - (d : Int) := by
  have hlt : t < s.players.length := by omega
  have hlt1 : t < (hitUpdate s t d).players.length := by
    rw [hitUpdate_players_length]; omega
  simp only [processMessage]
  rw [processHit_spec s sender t d hl ht hc]
  by_cases hkill : (s.players.getD t emptyPlayer).health - (d : Int) < 1
  · rw [if_pos hkill]
    exact ⟨_, _, rfl, by
      rw [markNotAlive_getD_self _ _ hlt1, hitUpdate_getD_self s t d hlt]⟩
  · rw [if_neg hkill]
    exact ⟨_, _, rfl, by rw [hitUpdate_getD_self s t d hlt]⟩

/-- C1 witness: the amended statement evaluated in the reachable
two-player game, hit on slot 3 with damage 2. -/
theorem hit_decrement_unclamped_witness :
    ∃ s2 outs, processMessage demoState 0 [0, 3, 2] = some (s2, outs) ∧
      (s2.players.getD 3 emptyPlayer).health
        = (demoState.players.getD 3 emptyPlayer).health - (2 : Int) :=
  hit_decrement_unclamped demoState 0 3 2 (by decide) (by decide) (by decide)

/-! C2: round transitions. -/

/-- C2 counterexample: invoking the round transition with the counter at
the last round (10) — as the elimination handler's deferred call does
when a team wipes during round 10 — still emits a NextRound broadcast
and moves the counter to 11, exceeding 10. -/
theorem nextRound_at_last_round_cex :
    (nextRound roundTenState).1.round = 11 ∧
    countOut (nextRound roundTenState).2 (Output.broadcast [nextRoundHeader]) = 1 ∧
    Output.scheduleExit ∈ (nextRound roundTenState).2 := by
  refine ⟨by decide, by decide, by decide⟩

/-- C2 (amended): every round transition increments the round counter by
exactly 1 and emits exactly one NextRound broadcast, unconditionally;
reaching the transition with the counter at 10 schedules process
termination after the linger delay, but does not suppress the NextRound
broadcast or the increment, so the counter then reaches 11. -/
theorem nextRound_transition_spec (s : Server) :
    (nextRound s).1.round = s.round + 1 ∧
    countOut (nextRound s).2 (Output.broadcast [nextRoundHeader]) = 1 ∧
    (Output.scheduleExit ∈ (nextRound s).2 ↔ s.round = 10) := by
  by_cases h : s.round = 10 <;>
    simp [nextRound, countOut, h]

/-! C3: kill broadcasts. -/

/-- C3 counterexample: in the reachable two-player game, a Hit killing
the player in slot 3 is followed by a second Hit on the now-dead slot;
the Killed broadcast for victim 3 is emitted twice within the round. -/
theorem killed_rebroadcast_cex :
    (processMessages demoState 0 [[0, 3, 3], [0, 3, 1]]).map
        (fun r => countOut r.2 (Output.broadcast [killedHeader, 0, 3]))
      = some 2 := by
  decide

/-- C3 (amended): a Hit message against an occupied slot emits a Killed
broadcast and clears the alive flag exactly when the decremented stored
health is below 1 — the previous alive flag is not consulted, so every
further Hit against an already-dead target (whose health stays below 1)
emits a further Killed broadcast. -/
theorem killed_broadcast_iff_low_health (s : Server) (sender t d : Nat)
    (hl : s.players.length = 6) (ht : t < 6)
    (hc : (s.players.getD t emptyPlayer).hasConn = true) :
    ∃ s2 outs, processMessage s sender [0, t, d] = some (s2, outs) ∧
      (Output.broadcast [killedHeader, sender, t] ∈ outs ↔
        (s.players.getD t emptyPlayer).health - (d : Int) < 1) ∧
      (s2.players.getD t emptyPlayer).isAlive
        = (if (s.players.getD t emptyPlayer).health - (d : Int) < 1 then false
           else (s.players.getD t emptyPlayer).isAlive) := by
  have hlt : t < s.players.length := by omega
  have hlt1 : t < (hitUpdate s t d).players.length := by
    rw [hitUpdate_players_length]; omega
  simp only [processMessage]
  rw [processHit_spec s sender t d hl ht hc]
  by_cases hkill : (s.players.getD t emptyPlayer).health - (d : Int) < 1
  · rw [if_pos hkill]
    refine ⟨_, _, rfl, ?_, ?_⟩
    · exact iff_of_true (by simp) hkill
    · rw [markNotAlive_getD_self _ _ hlt1, if_pos hkill]
  · rw [if_neg hkill]
    refine ⟨_, _, rfl, ?_, ?_⟩
    · exact iff_of_false (by simp) hkill
    · rw [hitUpdate_getD_self s t d hlt, if_neg hkill]

/-- C3 witness: the amended statement evaluated on the two-player game,
hit on slot 3 with damage 3 (a killing blow). -/
theorem killed_broadcast_iff_low_health_witness :
    ∃ s2 outs, processMessage demoState 0 [0, 3, 3] = some (s2, outs) ∧
      (Output.broadcast [killedHeader, 0, 3] ∈ outs ↔
        (demoState.players.getD 3 emptyPlayer).health - (3 : Int) < 1) ∧
      (s2.players.getD 3 emptyPlayer).isAlive
        = (if (demoState.players.getD 3 emptyPlayer).health - (3 : Int) < 1 then false
           else (demoState.players.getD 3 emptyPlayer).isAlive) :=
  killed_broadcast_iff_low_health demoState 0 3 3 (by decide) (by decide) (by decide)

/-! C4: team points. -/

/-- The opposing team, as used in the team-point award. -/
def otherTeam : Team → Team
  | Team.a => Team.b
  | Team.b => Team.a

/-- Whether every occupied member of the given team is not-alive. -/
def teamAllDead (s : Server) : Team → Bool
  | Team.a => isTeamAAllDead s
  | Team.b => isTeamBAllDead s

/-- C4 counterexample: after the Hit that wipes team B, a second Hit on
the dead slot 3 — still before any NextRound broadcast — emits a second
TeamPoint broadcast for team A, so the TeamPoint broadcast between the
elimination and the next NextRound is not unique. -/
theorem teampoint_rebroadcast_cex :
    (processMessages demoState 0 [[0, 3, 3], [0, 3, 1]]).map
        (fun r =>
          (countOut r.2 (Output.broadcast [teamPointHeader, teamByte Team.a]),
           countOut r.2 (Output.broadcast [nextRoundHeader])))
      = some (2, 0) := by
  decide

/-- C4 (amended): a Hit that leaves the target's health below 1 while
the target's whole team is dead in the resulting state emits exactly one
TeamPoint broadcast naming the opposing team within that message's
outputs, schedules the deferred round transition, and emits no NextRound
broadcast itself; but the team-elimination check runs on every such Hit,
so further Hits against members of the already-eliminated team emit
further TeamPoint broadcasts before the scheduled NextRound fires. -/
theorem teampoint_on_elimination (s : Server) (sender t d : Nat)
    (hl : s.players.length = 6) (ht : t < 6)
    (hc : (s.players.getD t emptyPlayer).hasConn = true)
    (hkill : (s.players.getD t emptyPlayer).health - (d : Int) < 1)
    (hdead : teamAllDead (markNotAlive (hitUpdate s t d) t)
        ((s.players.getD t emptyPlayer).team) = true) :
    ∃ s2 outs, processMessage s sender [0, t, d] = some (s2, outs) ∧
      countOut outs (Output.broadcast
        [teamPointHeader, teamByte (otherTeam ((s.players.getD t emptyPlayer).team))]) = 1 ∧
      countOut outs (Output.broadcast [nextRoundHeader]) = 0 ∧
      Output.scheduleNextRound ∈ outs := by
  have hlt : t < s.players.length := by omega
  have hlt1 : t < (hitUpdate s t d).players.length := by
    rw [hitUpdate_players_length]; omega
  have hteam : ((markNotAlive (hitUpdate s t d) t).players.getD t emptyPlayer).team
      = (s.players.getD t emptyPlayer).team := by
    rw [markNotAlive_getD_self _ _ hlt1, hitUpdate_getD_self s t d hlt]
  simp only [processMessage]
  rw [processHit_spec s sender t d hl ht hc, if_pos hkill]
  refine ⟨_, _, rfl, ?_⟩
  cases htm : (s.players.getD t emptyPlayer).team with
  | a =>
    rw [htm] at hteam hdead
    unfold killTail
    rw [if_pos ⟨hteam, hdead⟩]
    refine ⟨?_, ?_, ?_⟩ <;> simp [countOut, otherTeam, teamByte, List.countP_cons]
  | b =>
    rw [htm] at hteam hdead
    unfold killTail
    rw [if_neg (by rintro ⟨h1, h2⟩; rw [hteam] at h1; exact Team.noConfusion h1),
      if_pos ⟨hteam, hdead⟩]
    refine ⟨?_, ?_, ?_⟩ <;> simp [countOut, otherTeam, teamByte, List.countP_cons]

/-- C4 witness: the amended statement on the two-player game, a Hit of
damage 3 on slot 3 wiping team B. -/
theorem teampoint_on_elimination_witness :
    ∃ s2 outs, processMessage demoState 0 [0, 3, 3] = some (s2, outs) ∧
      countOut outs (Output.broadcast
        [teamPointHeader,
         teamByte (otherTeam ((demoState.players.getD 3 emptyPlayer).team))]) = 1 ∧
      countOut outs (Output.broadcast [nextRoundHeader]) = 0 ∧
      Output.scheduleNextRound ∈ outs :=
  teampoint_on_elimination demoState 0 3 3 (by decide) (by decide) (by decide)
    (by decide) (by decide)

/-! C6: disconnects. -/

/-- C6 counterexample: a connection-level I/O error that is not a
normal-closure or going-away close error leaves the receive loop
running (the handler logs and continues), while a graceful close exits
the loop — the two cases are not treated the same. -/
theorem read_error_keeps_loop_cex :
    readErrorAction none = LoopAction.continueLoop ∧
    readErrorAction (some 1000) = LoopAction.exitLoop := by
  decide

/-- C6 (amended): only a close error with code CloseNormalClosure (1000)
or CloseGoingAway (1001) ends the receive loop; any other read error is
logged and the loop continues.  When the loop does end, the cleanup
resets the slot to the empty-slot state, decrements the live count, and
broadcasts a PlayerDisconnect message carrying the vacated id. -/
theorem disconnect_cleanup_spec (c : Nat) (s : Server) (id : Nat)
    (hid : id < 6) (hl : s.players.length = 6) :
    (readErrorAction (some c) = LoopAction.exitLoop ↔ (c = 1000 ∨ c = 1001)) ∧
    readErrorAction none = LoopAction.continueLoop ∧
    (disconnectCleanup s id).1.players.getD id emptyPlayer = emptyPlayer ∧
    (disconnectCleanup s id).1.currentNumPlayers = s.currentNumPlayers - 1 ∧
    (disconnectCleanup s id).2 = [Output.broadcast [playerDisconnectHeader, id]] := by
  refine ⟨?_, rfl, ?_, rfl, rfl⟩
  · simp only [readErrorAction]
    split_ifs with h <;> simp [h]
  · simp only [disconnectCleanup]
    exact getD_set_self _ _ _ _ (by omega)

/-- C6 witness: the cleanup equalities on the two-player game with the
player in slot 3 disconnecting after a code-1000 close. -/
theorem disconnect_cleanup_spec_witness :
    (disconnectCleanup demoState 3).1.currentNumPlayers
      = demoState.currentNumPlayers - 1 :=
  (disconnect_cleanup_spec 1000 demoState 3 (by decide) (by decide)).2.2.2.1

/-! C7: malformed messages. -/

/-- C7 counterexample: a Shot message of length 2 (the Shot kind has no
payload, so this length is wrong) is not dropped: the server broadcasts
the shot notification anyway, because the shot branch performs no length
check. -/
theorem shot_length_unchecked_cex :
    processMessage demoState 0 [1, 99]
      = some (demoState, [Output.broadcast [shotHeader, 0]]) := by
  decide

/-- C7 (amended): an empty message, a Hit message whose length is not 3,
a Location message whose length is not 4, and a message with an
unrecognized kind byte are each logged and dropped — no state mutation,
no output, and the connection stays in its receive loop; Shot messages,
however, are exempt from length validation and are broadcast whatever
their length. -/
theorem malformed_message_dropped (s : Server) (sender : Nat) (msg : List Nat)
    (h : msg = [] ∨
      (∃ rest, msg = 0 :: rest ∧ rest.length ≠ 2) ∨
      (∃ rest, msg = 2 :: rest ∧ rest.length ≠ 3) ∨
      (∃ k rest, msg = k :: rest ∧ 2 < k)) :
    processMessage s sender msg = some (s, []) := by
  rcases h with h | ⟨rest, hm, hlen⟩ | ⟨rest, hm, hlen⟩ | ⟨k, rest, hm, hk⟩
  · rw [h]; rfl
  · subst hm
    match rest, hlen with
    | [], _ => rfl
    | [a], _ => rfl
    | a :: b :: c :: r, _ => rfl
    | [a, b], hlen => exact absurd rfl hlen
  · subst hm
    match rest, hlen with
    | [], _ => rfl
    | [a], _ => rfl
    | [a, b], _ => rfl
    | a :: b :: c :: e :: r, _ => rfl
    | [a, b, c], hlen => exact absurd rfl hlen
  · subst hm
    have h0 : k ≠ 0 := by omega
    have h1 : k ≠ 1 := by omega
    have h2 : k ≠ 2 := by omega
    simp [processMessage, h0, h1, h2]

/-- C7 witness: a Hit message of length 2 (the spec's own example) is
dropped with no state change and no output. -/
theorem malformed_message_dropped_witness :
    processMessage demoState 0 [0, 3] = some (demoState, []) :=
  malformed_message_dropped demoState 0 [0, 3]
    (Or.inr (Or.inl ⟨[3], rfl, by decide⟩))

/-! C9: fault-freedom of the hit handler. -/

/-- C9 counterexample: a length-3 Hit message faults for a target byte
of 6 (the raw byte indexes the 6-element array out of range) and for a
target whose slot is empty (the health-loss unicast dereferences a nil
connection) — both inputs panic the handler in the reachable two-player
game. -/
theorem hit_fault_cex :
    processMessage demoState 0 [0, 6, 1] = none ∧
    processMessage demoState 0 [0, 1, 1] = none := by
  decide

/-- C9 (amended): processing a length-3 Hit message is fault-free
exactly when the target byte is below 6 and the targeted slot is
occupied; for any other target byte or an empty target slot the handler
faults (array index out of range, or nil connection dereference). -/
theorem hit_processing_fault_iff (s : Server) (sender t d : Nat) :
    (processMessage s sender [0, t, d]).isSome = true ↔
      (t < 6 ∧ (s.players.getD t emptyPlayer).hasConn = true) := by
  simp only [processMessage, processHit]
  split_ifs <;> simp_all

/-! C8: location snapshots. -/

/-- The snapshot serialisation loop, in buffer-accumulator form, equals
the filter-and-concatenate form used by the spec. -/
theorem foldl_locations_eq (l : List Player) (acc : List Nat) :
    l.foldl
      (fun acc p =>
        if p.isEmpty then acc
        else acc ++ [p.id % 256, int8ToByte p.x, int8ToByte p.y, int8ToByte p.z])
      acc
      = acc ++ (l.filter (fun p => !p.isEmpty)).flatMap locationEntry := by
  induction l generalizing acc with
  | nil => simp
  | cons p ps ih =>
    cases hp : p.isEmpty <;>
      simp [hp, ih, locationEntry, List.filter_cons]

/-- C8 (confirmed): the ticker broadcasts nothing while the server is in
the lobby state and broadcasts exactly the serialised snapshot once the
round counter is positive; the snapshot is the Locations header byte
followed by one (id, x, y, z) tuple per occupied slot in index order,
with empty slots omitted. -/
theorem snapshot_broadcast_spec (s : Server) (hr : 0 ≤ s.round) :
    (tickOutputs s = [] ↔ ¬ 0 < s.round) ∧
    (0 < s.round → tickOutputs s = [Output.broadcast (serialiseLocations s)]) ∧
    serialiseLocations s = locationsHeader :: snapshotEntriesSpec s := by
  refine ⟨?_, ?_, ?_⟩
  · unfold tickOutputs
    split_ifs with h
    · simp; omega
    · simp; omega
  · intro h
    unfold tickOutputs
    rw [if_neg (by omega)]
  · simp only [serialiseLocations, snapshotEntriesSpec]
    rw [foldl_locations_eq]
    simp

/-- C8 witness: the snapshot shape and ticker behaviour in the reachable
two-player game (round 1): the broadcast is emitted and carries one
tuple per occupied slot. -/
theorem snapshot_broadcast_spec_witness :
    tickOutputs demoState = [Output.broadcast (serialiseLocations demoState)] ∧
    serialiseLocations demoState = locationsHeader :: snapshotEntriesSpec demoState :=
  ⟨(snapshot_broadcast_spec demoState (by decide)).2.1 (by decide),
   (snapshot_broadcast_spec demoState (by decide)).2.2⟩

/-! C5: handshake rejection. -/

/-- On a well-formed id naming a free slot, `initialisePlayer` occupies
the slot and increments the live count before attempting the success
write; the error field depends only on whether that write succeeds. -/
theorem initialisePlayer_success (s : Server) (m : List Nat) (w : Bool)
    (hbad : ¬ (m.length ≠ 1 ∨ 5 < m.headD 0))
    (htaken : ¬ ((s.players.getD (m.headD 0) emptyPlayer).isEmpty = false)) :
    initialisePlayer s (some m) w =
      { state := { s with
            players := s.players.set (m.headD 0) (newPlayer (m.headD 0)),
            currentNumPlayers := s.currentNumPlayers + 1 },
        sent := [0],
        error := if w then none else some InitError.writeFailed,
        newId := some (m.headD 0) } := by
  simp only [initialisePlayer, if_neg hbad, if_neg htaken]
  cases w <;> rfl

/-- C5 counterexample: with the lobby already full, a new connection is
rejected by an HTTP 403 before the websocket handshake: no failure byte
is written over a websocket (the sent byte list is empty), contradicting
the claim that each rejection replies with the failure byte 1. -/
theorem lobby_full_http_reject_cex :
    (serveWsAdmission demoState (some [2]) true).result
        = AdmissionResult.httpLobbyFull ∧
    (serveWsAdmission demoState (some [2]) true).sent = [] := by
  decide

/-- C5 (amended): admission is refused exactly when the lobby is full,
a round is in progress, the id message is bad (wrong length or byte
above 5), or the slot is taken — but through two mechanisms: lobby-full
and in-progress are HTTP rejections before the websocket exists and send
no failure byte, while a bad id message or a taken slot sends the
failure byte 1 over the websocket; otherwise (success write succeeding)
the slot is occupied, the live count is incremented, and the success
byte 0 is sent. -/
theorem admission_spec (s : Server) (m : List Nat)
    (hl : s.players.length = 6) :
    ((serveWsAdmission s (some m) true).result = AdmissionResult.httpLobbyFull ↔
      s.numPlayers ≤ s.currentNumPlayers) ∧
    ((serveWsAdmission s (some m) true).result = AdmissionResult.httpGameInProgress ↔
      (¬ s.numPlayers ≤ s.currentNumPlayers ∧ 0 < s.round)) ∧
    ((serveWsAdmission s (some m) true).sent = [1] ↔
      (¬ s.numPlayers ≤ s.currentNumPlayers ∧ ¬ 0 < s.round ∧
        ((m.length ≠ 1 ∨ 5 < m.headD 0) ∨
          (s.players.getD (m.headD 0) emptyPlayer).isEmpty = false))) ∧
    ((¬ s.numPlayers ≤ s.currentNumPlayers ∧ ¬ 0 < s.round ∧
        ¬ (m.length ≠ 1 ∨ 5 < m.headD 0) ∧
        (s.players.getD (m.headD 0) emptyPlayer).isEmpty = true) →
      ((serveWsAdmission s (some m) true).result
          = AdmissionResult.admitted (m.headD 0) ∧
       (serveWsAdmission s (some m) true).sent = [0] ∧
       ((serveWsAdmission s (some m) true).state.players.getD
           (m.headD 0) emptyPlayer).isEmpty = false ∧
       (serveWsAdmission s (some m) true).state.currentNumPlayers
          = s.currentNumPlayers + 1)) := by
  by_cases hfull : s.numPlayers ≤ s.currentNumPlayers
  · simp only [serveWsAdmission, if_pos hfull]
    refine ⟨iff_of_true trivial hfull,
      iff_of_false (by simp) (by rintro ⟨hnf, -⟩; exact hnf hfull),
      iff_of_false (by simp) (by rintro ⟨hnf, -⟩; exact hnf hfull), ?_⟩
    rintro ⟨hnf, -⟩
    exact absurd hfull hnf
  · by_cases hprog : 0 < s.round
    · simp only [serveWsAdmission, if_neg hfull, if_pos hprog]
      refine ⟨iff_of_false (by simp) hfull, iff_of_true trivial ⟨hfull, hprog⟩,
        iff_of_false (by simp) (by rintro ⟨-, hnp, -⟩; exact hnp hprog), ?_⟩
      rintro ⟨-, hnp, -⟩
      exact absurd hprog hnp
    · by_cases hbad : m.length ≠ 1 ∨ 5 < m.headD 0
      · simp only [serveWsAdmission, if_neg hfull, if_neg hprog,
          initialisePlayer, if_pos hbad]
        refine ⟨iff_of_false (by simp) hfull,
          iff_of_false (by simp) (by rintro ⟨-, hp⟩; exact hprog hp),
          iff_of_true trivial ⟨hfull, hprog, Or.inl hbad⟩, ?_⟩
        rintro ⟨-, -, hnb, -⟩
        exact absurd hbad hnb
      · by_cases htaken : (s.players.getD (m.headD 0) emptyPlayer).isEmpty = false
        · simp only [serveWsAdmission, if_neg hfull, if_neg hprog,
            initialisePlayer, if_neg hbad, if_pos htaken]
          refine ⟨iff_of_false (by simp) hfull,
            iff_of_false (by simp) (by rintro ⟨-, hp⟩; exact hprog hp),
            iff_of_true trivial ⟨hfull, hprog, Or.inr htaken⟩, ?_⟩
          rintro ⟨-, -, -, hemp⟩
          rw [htaken] at hemp
          exact Bool.noConfusion hemp
        · have hid : m.headD 0 < 6 := by
            rcases not_or.mp hbad with ⟨-, h5⟩
            omega
          have hlt : m.headD 0 < s.players.length := by omega
          have hlt1 : m.headD 0
              < (s.players.set (m.headD 0) (newPlayer (m.headD 0))).length := by
            rw [List.length_set]; omega
          have hslot : (s.players.set (m.headD 0)
                (newPlayer (m.headD 0))).getD (m.headD 0) emptyPlayer
              = newPlayer (m.headD 0) := getD_set_self _ _ _ _ hlt
          simp only [serveWsAdmission, if_neg hfull, if_neg hprog,
            initialisePlayer_success s m true hbad htaken, if_pos rfl]
          by_cases hq : s.currentNumPlayers + 1 = s.numPlayers
          · simp only [if_pos hq, nextRound]
            refine ⟨iff_of_false (by simp) hfull,
              iff_of_false (by simp) (by rintro ⟨-, hp⟩; exact hprog hp),
              iff_of_false (by simp)
                (by rintro ⟨-, -, hb | ht⟩; exacts [hbad hb, htaken ht]), ?_⟩
            rintro -
            refine ⟨rfl, rfl, ?_, rfl⟩
            show (((s.players.set (m.headD 0) (newPlayer (m.headD 0))).map
                (fun p => { p with health := 3, isAlive := true })).getD
                  (m.headD 0) emptyPlayer).isEmpty = false
            rw [getD_map_of_lt _ _ _ _ emptyPlayer hlt1, hslot]
            rfl
          · simp only [if_neg hq]
            refine ⟨iff_of_false (by simp) hfull,
              iff_of_false (by simp) (by rintro ⟨-, hp⟩; exact hprog hp),
              iff_of_false (by simp)
                (by rintro ⟨-, -, hb | ht⟩; exacts [hbad hb, htaken ht]), ?_⟩
            rintro -
            refine ⟨rfl, rfl, ?_, rfl⟩
            show ((s.players.set (m.headD 0) (newPlayer (m.headD 0))).getD
                (m.headD 0) emptyPlayer).isEmpty = false
            rw [hslot]
            rfl

/-- C5 witness: a fresh three-player server admitting id 0: none of the
four rejection conditions hold, the slot becomes occupied, the count
becomes 1, and the success byte is sent. -/
theorem admission_spec_witness :
    (serveWsAdmission (newServer 3) (some [0]) true).result
        = AdmissionResult.admitted 0 ∧
    (serveWsAdmission (newServer 3) (some [0]) true).sent = [0] ∧
    ((serveWsAdmission (newServer 3) (some [0]) true).state.players.getD
        0 emptyPlayer).isEmpty = false ∧
    (serveWsAdmission (newServer 3) (some [0]) true).state.currentNumPlayers
        = (newServer 3).currentNumPlayers + 1 :=
  (admission_spec (newServer 3) [0] (by decide)).2.2.2
    (by refine ⟨by decide, by decide, by decide, by decide⟩)

/-! C10: handshake atomicity. -/

/-- C10 counterexample: on a fresh three-player server, a handshake for
the free slot 4 whose success-byte write fails makes `initialisePlayer`
return an error, yet the slot is left occupied and the live count
incremented — the registry is not rolled back, and the connection never
enters the receive loop. -/
theorem init_write_failure_not_atomic_cex :
    (initialisePlayer (newServer 3) (some [4]) false).error
        = some InitError.writeFailed ∧
    ((initialisePlayer (newServer 3) (some [4]) false).state.players.getD
        4 emptyPlayer).isEmpty = false ∧
    (initialisePlayer (newServer 3) (some [4]) false).state.currentNumPlayers
        = 1 := by
  decide

/-- C10 (amended): `initialisePlayer` leaves the registry untouched when
it fails validation (read error, bad id message, taken slot); but when
the write of the success byte fails after validation, it returns an
error with the slot already occupied by the new player and the live
count already incremented, so a slot stays occupied for a connection
that never enters the receive loop. -/
theorem init_registry_atomicity (s : Server) (m : Option (List Nat)) (w : Bool)
    (hl : s.players.length = 6) :
    ((initialisePlayer s m w).error = some InitError.readFailed ∨
     (initialisePlayer s m w).error = some InitError.badIdMessage ∨
     (initialisePlayer s m w).error = some InitError.slotTaken →
       (initialisePlayer s m w).state = s) ∧
    ((initialisePlayer s m w).error = some InitError.writeFailed →
       (initialisePlayer s m w).state.currentNumPlayers
           = s.currentNumPlayers + 1 ∧
       ∃ id, id < 6 ∧
         (initialisePlayer s m w).state.players.getD id emptyPlayer
           = newPlayer id) := by
  match m with
  | none =>
    refine ⟨fun _ => rfl, ?_⟩
    intro hw
    exact absurd hw (by simp [initialisePlayer])
  | some m =>
    by_cases hbad : m.length ≠ 1 ∨ 5 < m.headD 0
    · simp only [initialisePlayer, if_pos hbad]
      refine ⟨fun _ => trivial, ?_⟩
      intro hw
      exact InitError.noConfusion (Option.some.inj hw)
    · by_cases htaken : (s.players.getD (m.headD 0) emptyPlayer).isEmpty = false
      · simp only [initialisePlayer, if_neg hbad, if_pos htaken]
        refine ⟨fun _ => trivial, ?_⟩
        intro hw
        exact InitError.noConfusion (Option.some.inj hw)
      · have hid : m.headD 0 < 6 := by
          rcases not_or.mp hbad with ⟨-, h5⟩
          omega
        have hlt : m.headD 0 < s.players.length := by omega
        rw [initialisePlayer_success s m w hbad htaken]
        refine ⟨?_, ?_⟩
        · cases w
          · rintro (he | he | he) <;>
              exact InitError.noConfusion (Option.some.inj he)
          · rintro (he | he | he) <;> exact Option.noConfusion he
        · intro hw
          exact ⟨rfl, m.headD 0, hid, getD_set_self _ _ _ _ hlt⟩

/-- C10 witness: the write-failure half of the amended statement on the
fresh three-player server with requested id 4. -/
theorem init_registry_atomicity_witness :
    (initialisePlayer (newServer 3) (some [4]) false).state.currentNumPlayers
        = (newServer 3).currentNumPlayers + 1 :=
  ((init_registry_atomicity (newServer 3) (some [4]) false (by decide)).2
    (by decide)).1

end Shooter
